import Mathlib

/-!
Shallow embedding of the upload-app processing pipeline
(src/lib/queue-processor.ts, src/lib/ocr-service.ts,
src/lib/template-webhook-service.ts, src/app/api/upload/route.ts),
with theorems settling the frozen claims about its specification.

External HTTP calls (the OCR API and the per-template n8n webhooks) are
modelled as oracle values: either a parsed JSON payload or a thrown
axios-style failure carrying a message and an optional response-body error.
The Supabase `historico_uploads` row for one upload id is modelled as an
`Option DbRecord`; reads return it, conditional updates apply only when the
stored status matches the guard, mirroring `.eq(\x7bid\x7d).eq(\x7bstatus\x7d)`
update statements.
-/

namespace UploadApp

/-- JavaScript truthiness of an optional string: `undefined` and the empty
string are falsy, every other string is truthy. -/
def strTruthy : Option String → Bool
  | none => false
  | some s => !(s == "")

/-- JavaScript truthiness of an optional boolean: `undefined` and `false`
are falsy. -/
def boolTruthy : Option Bool → Bool
  | none => false
  | some b => b

/-- The empty string, named so it can follow an accessor. -/
def emptyString : String := ""

/-- JavaScript `a || b` on two strings, where only the empty string is
falsy (used for env-var fallback chains). -/
def jsOrStr (a b : String) : String := if a == emptyString then b else a

/-- JavaScript `a || b` on two optional strings: yields `a` when it is a
truthy string, otherwise `b` (which may itself be `undefined`). -/
def jsOrOpt (a b : Option String) : Option String :=
  if strTruthy a then a else b

/-- JavaScript `a || ""`: the string value of an optional string, with
`undefined` (and the empty string) collapsing to the empty string. -/
def jsOrValue (a : Option String) : String :=
  match a with
  | some s => s
  | none => ""

/-- Outcome of one axios HTTP call: either a parsed response body, or a
thrown failure with the error message and the optional
`error.response.data.error` field that the catch blocks inspect. -/
inductive HttpOutcome (α : Type) where
  | ok (data : α)
  | err (message : String) (responseError : Option String)
deriving DecidableEq

/-- JavaScript `responseError || errorMessage` used by both catch blocks. -/
def jsErrMessage (responseError : Option String) (message : String) : String :=
  match responseError with
  | some s => jsOrStr s message
  | none => message

/- ===== src/lib/ocr-service.ts ===== -/

/-- Fields of the OCR API JSON body that the gateway consults.
`extracted_text` is the flat text field the spec mentions; the source never
reads it (it only maps `texto_extraido`), and it is kept here to state that
fact. `texto_extraido` is the per-page list, reduced to each page's
`texto` field, which is all the source uses of it. -/
structure OcrApiData where
  extracted_text : Option String := none
  texto_extraido : Option (List String) := none
  sucesso : Option Bool := none
deriving DecidableEq

/-- The separator used to join per-page text fragments. -/
def pageSep : String := "\n\n"

/-- Canonical extracted text: `response.data.texto_extraido ? join : ''`
(ocr-service.ts lines 139-141). The flat field is not consulted. -/
def canonicalText (d : OcrApiData) : String :=
  match d.texto_extraido with
  | some pages => String.intercalate pageSep pages
  | none => ""

/-- Normalized result of `extractTextFromPdf`, keeping the fields the rest
of the pipeline reads: the success flag, the computed text, the error
description, and the raw `sucesso` flag forwarded from the API. -/
structure OcrResponse where
  success : Bool
  extracted_text : Option String := none
  error : Option String := none
  sucesso : Option Bool := none
deriving DecidableEq

/-- Message prefix used when `extractTextFromPdf` signals failure. -/
def msgExtractionFail : String := "Falha na extracao de texto: "

/-- The gateway call `extractTextFromPdf` (ocr-service.ts lines 75-191):
on a successful HTTP response it returns success together with the joined
per-page text and the forwarded `sucesso` flag; on a thrown axios error it
returns failure with `responseError || errorMessage`. -/
def extractTextFromPdf (resp : HttpOutcome OcrApiData) : OcrResponse :=
  match resp with
  | .ok d =>
      { success := true
        extracted_text := some (canonicalText d)
        sucesso := d.sucesso }
  | .err msg respErr =>
      { success := false
        error := some (jsErrMessage respErr msg) }

/-- Message thrown when there is no text and no explicit API success. -/
def msgNoTextNoSuccess : String :=
  "Nenhum texto foi extraido do PDF e API nao retornou sucesso"

/-- The template-aware extraction step `processFileByTemplate`
(ocr-service.ts lines 196-227): throws if the gateway reported failure;
throws if the text is falsy and the API did not explicitly report
`sucesso`; otherwise returns `extracted_text || ''`. -/
def processFileByTemplate (r : OcrResponse) : Except String String :=
  if !r.success then
    Except.error (msgExtractionFail ++ jsOrValue r.error)
  else if !strTruthy r.extracted_text && !boolTruthy r.sucesso then
    Except.error msgNoTextNoSuccess
  else
    Except.ok (jsOrValue r.extracted_text)

/- ===== src/lib/template-webhook-service.ts ===== -/

/-- The environment variables feeding `webhookConfig`
(template-webhook-service.ts lines 30-47). The empty string models an
unset variable, matching how the source only uses them through the
JavaScript `||` chain and truthiness checks. -/
structure EnvVars where
  faturaAgibankUrl : String
  extratoAgibankUrl : String
  faturaBmgUrl : String
  extratoBmgUrl : String
  defaultUrl : String
deriving DecidableEq

/-- The per-template webhook URL from the static `webhookConfig` record:
the four mapped template ids get `specific || default || ''`; every other
template id has no entry at all (indexing returns `undefined`). -/
def webhookConfigUrl (e : EnvVars) : String → Option String
  | "fatura-agibank" => some (jsOrStr e.faturaAgibankUrl e.defaultUrl)
  | "extrato-agibank" => some (jsOrStr e.extratoAgibankUrl e.defaultUrl)
  | "fatura-bmg" => some (jsOrStr e.faturaBmgUrl e.defaultUrl)
  | "extrato-bmg" => some (jsOrStr e.extratoBmgUrl e.defaultUrl)
  | _ => none

/-- Fields of the n8n webhook JSON reply that the dispatcher reads. -/
structure WebhookRespData where
  link : Option String := none
  result : Option String := none
deriving DecidableEq

/-- Normalized dispatcher result (`N8nResponse` in the source). -/
structure N8nResponse where
  success : Bool
  link : Option String := none
  result : Option String := none
  error : Option String := none
deriving DecidableEq

/-- Message produced when indexing `webhookConfig` with an unmapped
template id throws a TypeError that the catch block converts. -/
def msgNoConfigEntry : String :=
  "Cannot read properties of undefined (reading url)"

/-- Message prefix thrown when the mapped URL is empty. -/
def msgUrlNotConfigured : String := "Webhook URL nao configurada para template: "

/-- The dispatcher `processOcrDataByTemplate`
(template-webhook-service.ts lines 59-136). Every failure path is caught
and returned as a `success := false` value: an unmapped template id (the
TypeError on `.url`), an empty configured URL (the explicit throw), and a
failed HTTP post. A successful post yields
`link := data.link || data.result` and `result := data.result`. -/
def processOcrDataByTemplate (e : EnvVars) (template : String)
    (http : HttpOutcome WebhookRespData) : N8nResponse :=
  match webhookConfigUrl e template with
  | none => { success := false, error := some msgNoConfigEntry }
  | some url =>
      if url == emptyString then
        { success := false, error := some (msgUrlNotConfigured ++ template) }
      else
        match http with
        | .ok d => { success := true, link := jsOrOpt d.link d.result, result := d.result }
        | .err msg respErr => { success := false, error := some (jsErrMessage respErr msg) }

/- ===== src/lib/queue-processor.ts ===== -/

/-- Status values of `historico_uploads.status`. -/
inductive Status where
  | pending
  | processing
  | completed
  | error
  | cancelled
deriving DecidableEq

/-- The persisted upload record fields the pipeline reads and writes:
`status`, and `link` (the result link; `none` models SQL null). -/
structure DbRecord where
  status : Status
  link : Option String
deriving DecidableEq

/-- Shapes the job file payload can arrive in after (possibly) round-
tripping through the Redis transport, mirroring the branches of the
decode step (queue-processor.ts lines 113-127): a native byte buffer, an
object whose `data` field is an array of numbers (with or without the
`type: Buffer` tag), an object tagged `type: Buffer` without an array
`data` field, and any other value. -/
inductive FileBuffer where
  | buffer (bytes : List Nat)
  | serialized (hasTypeTag : Bool) (data : List Nat)
  | typeTagOnly
  | other
deriving DecidableEq

/-- Node `Buffer.from` on a number array keeps each entry modulo 256. -/
def bufferFrom (data : List Nat) : List Nat := data.map (· % 256)

/-- Message thrown for a `type: Buffer` object without array data. -/
def msgUnsupportedFormat : String := "Formato de Buffer nao suportado"

/-- Message thrown for every other unrecognized payload shape. -/
def msgNotConvertible : String :=
  "Arquivo nao pode ser convertido para Buffer valido"

/-- The payload decode step (queue-processor.ts lines 113-127): native
buffers pass through, array-`data` objects are rebuilt with
`Buffer.from`, everything else throws. -/
def decodeFileBuffer : FileBuffer → Except String (List Nat)
  | .buffer bs => Except.ok bs
  | .serialized _ d => Except.ok (bufferFrom d)
  | .typeTagOnly => Except.error msgUnsupportedFormat
  | .other => Except.error msgNotConvertible

/-- Side effects a pipeline execution can perform, in order: the
conditional `pending -> processing` update, the payload decode, the OCR
call, the dispatch call, and the terminal status writes. -/
inductive Effect where
  | condUpdateProcessing
  | decodePayload
  | callOcr
  | callDispatch
  | writeCompleted
  | writeError
deriving DecidableEq

/-- How one pipeline execution ended: an early-return abort (no effects
after the point of the abort), a thrown-and-rethrown failure, or success
with the link value written to the record. -/
inductive PipeResult where
  | abortedStatusLookup
  | abortedCancelled
  | abortedCompleted
  | abortedProcessing
  | abortedGuard
  | failed (msg : String)
  | succeeded (link : Option String)
deriving DecidableEq

/-- The behaviour of the two external services for one execution, plus
the webhook environment configuration. -/
structure Oracle where
  ocrHttp : HttpOutcome OcrApiData
  dispatchHttp : HttpOutcome WebhookRespData
  env : EnvVars
deriving DecidableEq

/-- The conditional update `set status = processing where id = .. and
status = pending` (queue-processor.ts lines 81-85): a no-op unless the
stored status is `pending`. -/
def updateProcessingIfPending (db : Option DbRecord) : Option DbRecord :=
  db.map fun r => if r.status = Status.pending then { r with status := Status.processing } else r

/-- The unconditional `set status = error where id = ..` write of the
catch block (queue-processor.ts lines 200-203); `link` is untouched. -/
def updateStatusError (db : Option DbRecord) : Option DbRecord :=
  db.map fun r => { r with status := Status.error }

/-- The `set status = completed, link = v where id = ..` write
(queue-processor.ts lines 175-181). A JavaScript `undefined` link value
is dropped from the update body, leaving the stored link unchanged. -/
def updateCompleted (db : Option DbRecord) (v : Option String) : Option DbRecord :=
  db.map fun r =>
    { r with
      status := Status.completed
      link := match v with | none => r.link | some s => some s }

/-- The conditional `set status = cancelled where id = .. and status =
pending` write used by every cancellation path. -/
def updateCancelledIfPending (db : Option DbRecord) : Option DbRecord :=
  db.map fun r => if r.status = Status.pending then { r with status := Status.cancelled } else r

/-- Message prefix wrapped around a thrown OCR failure. -/
def msgOcrStep : String := "Falha no OCR: "

/-- Message prefix thrown when the dispatcher reports failure. -/
def msgTemplateStep : String := "Erro no processamento do template: "

/-- The processing pipeline `processFileDirectly`
(queue-processor.ts lines 49-207), run by both the worker and the
fallback path. `interfere` is what concurrent actors do to the stored
record inside the race window between the initial status read and the
conditional update (`fun s => s` for an execution with no concurrent
interference). Returns the stored record after the execution, the list
of side effects the execution performed, and how it ended.

Control flow from the source: read status (missing record aborts); abort
on `cancelled` / `completed` / `processing`; conditionally update to
`processing` guarded by `pending`; re-read and abort unless the stored
status is now `processing`; decode the payload; call the OCR service by
template; call the template dispatcher and throw if it reports failure;
write `completed` with `link || result`. Every throw is caught by the
outer catch, which writes `error` and rethrows. -/
def processFileDirectly (interfere : Option DbRecord → Option DbRecord)
    (db0 : Option DbRecord) (fileBuffer : FileBuffer) (template : String)
    (o : Oracle) : Option DbRecord × List Effect × PipeResult :=
  match db0 with
  | none => (db0, [], PipeResult.abortedStatusLookup)
  | some r =>
    if r.status = Status.cancelled then (db0, [], PipeResult.abortedCancelled)
    else if r.status = Status.completed then (db0, [], PipeResult.abortedCompleted)
    else if r.status = Status.processing then (db0, [], PipeResult.abortedProcessing)
    else
      let db2 := updateProcessingIfPending (interfere db0)
      match db2 with
      | none => (none, [Effect.condUpdateProcessing], PipeResult.abortedGuard)
      | some r2 =>
        if r2.status ≠ Status.processing then
          (some r2, [Effect.condUpdateProcessing], PipeResult.abortedGuard)
        else
          match decodeFileBuffer fileBuffer with
          | Except.error m =>
              (updateStatusError (some r2),
               [Effect.condUpdateProcessing, Effect.decodePayload, Effect.writeError],
               PipeResult.failed m)
          | Except.ok _bytes =>
              match processFileByTemplate (extractTextFromPdf o.ocrHttp) with
              | Except.error m =>
                  (updateStatusError (some r2),
                   [Effect.condUpdateProcessing, Effect.decodePayload, Effect.callOcr,
                    Effect.writeError],
                   PipeResult.failed (msgOcrStep ++ m))
              | Except.ok _text =>
                  let n8n := processOcrDataByTemplate o.env template o.dispatchHttp
                  if n8n.success then
                    let v := jsOrOpt n8n.link n8n.result
                    (updateCompleted (some r2) v,
                     [Effect.condUpdateProcessing, Effect.decodePayload, Effect.callOcr,
                      Effect.callDispatch, Effect.writeCompleted],
                     PipeResult.succeeded v)
                  else
                    (updateStatusError (some r2),
                     [Effect.condUpdateProcessing, Effect.decodePayload, Effect.callOcr,
                      Effect.callDispatch, Effect.writeError],
                     PipeResult.failed (msgTemplateStep ++ jsOrValue n8n.error))

/-- The broker-visible job lists consulted by cancellation: upload ids of
waiting/delayed jobs and of active jobs. -/
structure QueueState where
  waiting : List Nat
  active : List Nat
deriving DecidableEq

/-- The cancellation operation `cancelFromQueue`
(queue-processor.ts lines 313-434), with the status re-read near the end
reading the same stored record (no concurrent interference is modelled
here). Returns the stored record afterwards and the boolean result. -/
def cancelFromQueue (redisAvailable : Bool) (q : QueueState) (uploadId : Nat)
    (db : Option DbRecord) : Option DbRecord × Bool :=
  match db with
  | none => (db, false)
  | some r =>
    if r.status = Status.completed ∨ r.status = Status.error ∨ r.status = Status.cancelled then
      (db, false)
    else if r.status = Status.processing then (db, false)
    else if !redisAvailable then (updateCancelledIfPending db, true)
    else if uploadId ∈ q.waiting then (updateCancelledIfPending db, true)
    else if uploadId ∈ q.active then (db, false)
    else if r.status = Status.pending then (updateCancelledIfPending db, true)
    else (db, false)

/-- A buffer as it arrives at the worker after the Redis transport has
JSON-serialized it (`type: Buffer` object with a `data` array). -/
def serializedJobBuffer (bytes : List Nat) : FileBuffer :=
  FileBuffer.serialized true bytes

/-- The fallback path: `processFileDirectly` invoked in-process with the
native buffer (queue-processor.ts lines 287-291 and 305-310). -/
def fallbackExecute (db0 : Option DbRecord) (bytes : List Nat)
    (template : String) (o : Oracle) : Option DbRecord × List Effect × PipeResult :=
  processFileDirectly (fun s => s) db0 (FileBuffer.buffer bytes) template o

/-- The worker path: `processFileDirectly` invoked on the job data after
the buffer round-tripped through the broker
(queue-processor.ts lines 226-239). -/
def workerExecute (db0 : Option DbRecord) (bytes : List Nat)
    (template : String) (o : Oracle) : Option DbRecord × List Effect × PipeResult :=
  processFileDirectly (fun s => s) db0 (serializedJobBuffer bytes) template o

/-- Outcome of `addToQueue`: the job was handed to the broker (to be run
by the worker later), or the pipeline was run directly in-process. -/
inductive SubmitOutcome where
  | enqueued
  | ranDirectly (result : Option DbRecord × List Effect × PipeResult)
deriving DecidableEq

/-- The facade entry point `addToQueue` (queue-processor.ts lines
284-311): no broker (or a failed enqueue) runs the pipeline directly;
otherwise the job is enqueued for the worker. -/
def addToQueue (redisAvailable enqueueSucceeds : Bool) (db0 : Option DbRecord)
    (bytes : List Nat) (template : String) (o : Oracle) : SubmitOutcome :=
  if !redisAvailable then SubmitOutcome.ranDirectly (fallbackExecute db0 bytes template o)
  else if enqueueSucceeds then SubmitOutcome.enqueued
  else SubmitOutcome.ranDirectly (fallbackExecute db0 bytes template o)

/- ===== src/app/api/upload/route.ts ===== -/

/-- The template ids accepted by the upload endpoint validation
(upload/route.ts, `validTemplates`). -/
def validTemplates : List String :=
  ["fatura-agibank", "extrato-agibank", "fatura-bmg", "extrato-bmg",
   "pje-remuneracao", "pje-horas"]

/-- Records start as inserted by the upload endpoint: status `pending`,
link null. -/
def initialRecord : Option DbRecord := some { status := Status.pending, link := none }

/-- The stored states reachable from a freshly inserted record through
sequential (non-interfered) pipeline executions and cancellations. -/
inductive Reachable : Option DbRecord → Prop where
  | init : Reachable initialRecord
  | pipeline (fb : FileBuffer) (t : String) (o : Oracle) {db : Option DbRecord} :
      Reachable db → Reachable (processFileDirectly (fun s => s) db fb t o).1
  | cancel (redis : Bool) (q : QueueState) (uid : Nat) {db : Option DbRecord} :
      Reachable db → Reachable (cancelFromQueue redis q uid db).1

/-- The status stored for the record, when it exists. -/
def statusOf (db : Option DbRecord) : Option Status := db.map fun r => r.status

/-- Whether an exception-throwing step returned normally. -/
def exceptToBool {α : Type} : Except String α → Bool
  | Except.ok _ => true
  | Except.error _ => false

/-- The payload decode step returns a buffer. -/
def decodeOk (fb : FileBuffer) : Bool := exceptToBool (decodeFileBuffer fb)

/-- The extraction step (gateway call plus template validation) returns
normally for this execution's OCR oracle. -/
def ocrStepOk (o : Oracle) : Bool :=
  exceptToBool (processFileByTemplate (extractTextFromPdf o.ocrHttp))

/-- The dispatcher reports success for this execution's webhook oracle. -/
def dispatchStepOk (o : Oracle) (t : String) : Bool :=
  (processOcrDataByTemplate o.env t o.dispatchHttp).success

/-- A non-null stored link implies status `completed`. -/
def LinkInv (db : Option DbRecord) : Prop :=
  ∀ r : DbRecord, db = some r → r.link ≠ none → r.status = Status.completed

/-- Template id constants used by concrete executions. -/
def tFaturaAgibank : String := "fatura-agibank"

/-- Template id accepted by upload validation but absent from the
dispatcher mapping. -/
def tPjeRemuneracao : String := "pje-remuneracao"

/-- Second template id accepted by validation but absent from the
dispatcher mapping. -/
def tPjeHoras : String := "pje-horas"

/-- A concrete result link. -/
def linkL : String := "L"

/-- A concrete flat extracted-text value. -/
def flatHello : String := "hello"

/-- A concrete webhook destination. -/
def urlN8n : String := "http://n8n"

/-- Environment with only the fatura-agibank webhook configured. -/
def envAgibank : EnvVars :=
  { faturaAgibankUrl := urlN8n
    extratoAgibankUrl := emptyString
    faturaBmgUrl := emptyString
    extratoBmgUrl := emptyString
    defaultUrl := emptyString }

/-- Oracle where the OCR service extracts one page of text with explicit
success and the webhook answers with a link. -/
def oracleOk : Oracle :=
  { ocrHttp := HttpOutcome.ok { texto_extraido := some [flatHello], sucesso := some true }
    dispatchHttp := HttpOutcome.ok { link := some linkL }
    env := envAgibank }

/-- Oracle where the webhook reports plain HTTP success but its JSON body
carries neither a link nor a result field. -/
def oracleNoLink : Oracle :=
  { ocrHttp := HttpOutcome.ok { texto_extraido := some [flatHello], sucesso := some true }
    dispatchHttp := HttpOutcome.ok {}
    env := envAgibank }

/-- The stored record after a concurrent execution has already claimed the
job: status `processing`, link still null. -/
def racedProcessing : Option DbRecord :=
  some { status := Status.processing, link := none }

/- ===== Shared lemmas ===== -/

theorem jsOrValue_of_not_truthy {a : Option String} (h : strTruthy a = false) :
    jsOrValue a = emptyString := by
  cases a with
  | none => rfl
  | some s =>
    simp [strTruthy] at h
    simp [jsOrValue, h, emptyString]

theorem jsOrValue_of_truthy {a : Option String} (h : strTruthy a = true) :
    jsOrValue a ≠ emptyString := by
  cases a with
  | none => simp [strTruthy] at h
  | some s =>
    simp only [strTruthy, Bool.not_eq_eq_eq_not, Bool.not_true, beq_eq_false_iff_ne] at h
    simpa [jsOrValue, emptyString] using h

theorem bufferFrom_of_bytes {d : List Nat} (h : ∀ x ∈ d, x < 256) :
    bufferFrom d = d := by
  induction d with
  | nil => rfl
  | cons a l ih =>
    have ha : a % 256 = a := Nat.mod_eq_of_lt (h a (List.mem_cons_self a l))
    have hl := ih fun x hx => h x (List.mem_cons_of_mem a hx)
    simp only [bufferFrom, List.map_cons] at hl ⊢
    rw [ha, hl]

theorem pipeline_final_status (l : Option String) (fb : FileBuffer) (t : String)
    (o : Oracle) :
    statusOf (processFileDirectly (fun s => s) (some { status := Status.pending, link := l }) fb t o).1
      = some (if decodeOk fb && ocrStepOk o && dispatchStepOk o t
              then Status.completed else Status.error) := by
  rcases hd : decodeFileBuffer fb with m | bs <;>
    rcases hocr : processFileByTemplate (extractTextFromPdf o.ocrHttp) with m2 | txt <;>
    cases hn : (processOcrDataByTemplate o.env t o.dispatchHttp).success <;>
    simp [processFileDirectly, updateProcessingIfPending, updateStatusError,
      updateCompleted, statusOf, decodeOk, ocrStepOk, dispatchStepOk, exceptToBool,
      hd, hocr, hn]

theorem pipeline_decode_congr (interfere : Option DbRecord → Option DbRecord)
    (db : Option DbRecord) {fb1 fb2 : FileBuffer}
    (h : decodeFileBuffer fb1 = decodeFileBuffer fb2) (t : String) (o : Oracle) :
    processFileDirectly interfere db fb1 t o = processFileDirectly interfere db fb2 t o := by
  unfold processFileDirectly
  simp only [h]

theorem linkInv_of_pending {r : DbRecord} (h : LinkInv (some r))
    (hs : r.status = Status.pending) : r.link = none := by
  by_contra hne
  have hc := h r rfl hne
  rw [hs] at hc
  exact absurd hc (by simp)

theorem linkInv_pipeline {db : Option DbRecord} (h : LinkInv db)
    (fb : FileBuffer) (t : String) (o : Oracle) :
    LinkInv (processFileDirectly (fun s => s) db fb t o).1 := by
  match db with
  | none =>
    intro r hr
    simp [processFileDirectly] at hr
  | some r0 =>
    cases hs : r0.status with
    | cancelled => simpa [processFileDirectly, hs] using h
    | completed => simpa [processFileDirectly, hs] using h
    | processing => simpa [processFileDirectly, hs] using h
    | error =>
      intro r hr hne
      simp [processFileDirectly, hs, updateProcessingIfPending] at hr
      subst hr
      have hc := h r0 rfl hne
      rw [hs] at hc
      exact absurd hc (by simp)
    | pending =>
      have hl : r0.link = none := linkInv_of_pending h hs
      intro r hr hne
      rcases hd : decodeFileBuffer fb with m | bs <;>
        rcases hocr : processFileByTemplate (extractTextFromPdf o.ocrHttp) with m2 | txt <;>
        cases hn : (processOcrDataByTemplate o.env t o.dispatchHttp).success <;>
        simp [processFileDirectly, updateProcessingIfPending, updateStatusError,
          updateCompleted, hs, hd, hocr, hn, hl] at hr <;>
        rw [← hr] at hne ⊢ <;>
        simp_all

theorem linkInv_cancel {db : Option DbRecord} (h : LinkInv db)
    (redis : Bool) (q : QueueState) (uid : Nat) :
    LinkInv (cancelFromQueue redis q uid db).1 := by
  match db with
  | none =>
    intro r hr
    simp [cancelFromQueue] at hr
  | some r0 =>
    cases hs : r0.status with
    | completed => simpa [cancelFromQueue, hs] using h
    | error => simpa [cancelFromQueue, hs] using h
    | cancelled => simpa [cancelFromQueue, hs] using h
    | processing => simpa [cancelFromQueue, hs] using h
    | pending =>
      have hl : r0.link = none := linkInv_of_pending h hs
      intro r hr hne
      cases redis <;>
        by_cases hw : uid ∈ q.waiting <;>
        by_cases ha : uid ∈ q.active <;>
        simp [cancelFromQueue, updateCancelledIfPending, hs, hw, ha, hl] at hr <;>
        rw [← hr] at hne <;>
        simp_all

theorem linkInv_reachable {db : Option DbRecord} (h : Reachable db) : LinkInv db := by
  induction h with
  | init =>
    intro r hr hne
    simp [initialRecord] at hr
    rw [← hr] at hne
    simp at hne
  | pipeline fb t o _ ih => exact linkInv_pipeline ih fb t o
  | cancel redis q uid _ ih => exact linkInv_cancel ih redis q uid

/- ===== Claim theorems ===== -/

/-- C1: evaluation of the code at the failing race. The first status read
saw `pending`, but a concurrent execution stored `processing` before the
conditional update ran, so the conditional update matched zero records
(first conjunct: it left the store unchanged). The claim says the
execution must then abort with no further side effects; instead the
re-read sees `processing` and the execution continues, decoding the
payload, calling the OCR service and the dispatcher, and writing
`completed` (second conjunct) — a second full pipeline run for the id. -/
theorem lost_race_still_runs_pipeline :
    updateProcessingIfPending racedProcessing = racedProcessing ∧
    processFileDirectly (fun _ => racedProcessing) initialRecord
        (FileBuffer.buffer [1]) tFaturaAgibank oracleOk
      = (some { status := Status.completed, link := some linkL },
         [Effect.condUpdateProcessing, Effect.decodePayload, Effect.callOcr,
          Effect.callDispatch, Effect.writeCompleted],
         PipeResult.succeeded (some linkL)) :=
  ⟨rfl, rfl⟩

/-- C2 counterexample: the state with status `completed` and a null
result link is reachable (insert pending, then run the pipeline with the
dispatcher reporting HTTP success whose JSON body has neither `link` nor
`result`), and at that state the claimed equivalence between a non-empty
`resultLink` and status `completed` is false. -/
theorem completed_without_link_reachable :
    Reachable (some { status := Status.completed, link := none }) ∧
    ¬ (({ status := Status.completed, link := none } : DbRecord).link ≠ none ↔
       ({ status := Status.completed, link := none } : DbRecord).status = Status.completed) := by
  constructor
  · have e : (processFileDirectly (fun s => s) initialRecord (FileBuffer.buffer [1])
        tFaturaAgibank oracleNoLink).1
        = some { status := Status.completed, link := none } := rfl
    exact e ▸ Reachable.pipeline (FileBuffer.buffer [1]) tFaturaAgibank oracleNoLink Reachable.init
  · simp

/-- C2 amended: in every reachable state a non-null `resultLink` implies
status `completed` (but not conversely: a dispatcher success whose reply
carries no link leaves a `completed` record with a null link). The second
conjunct is the positive half that survives: the round-trip with both
services succeeding and the dispatcher supplying link `L` ends in
`completed` with `resultLink = L`. -/
theorem resultLink_nonempty_only_if_completed :
    (∀ db : Option DbRecord, Reachable db → LinkInv db) ∧
    processFileDirectly (fun s => s) initialRecord (FileBuffer.buffer [1])
        tFaturaAgibank oracleOk
      = (some { status := Status.completed, link := some linkL },
         [Effect.condUpdateProcessing, Effect.decodePayload, Effect.callOcr,
          Effect.callDispatch, Effect.writeCompleted],
         PipeResult.succeeded (some linkL)) :=
  ⟨fun _ h => linkInv_reachable h, rfl⟩

/-- C2 witness: the amended invariant applied at the concrete reachable
state holding link `L`, whose hypotheses are discharged at that state. -/
theorem resultLink_nonempty_only_if_completed_witness :
    ({ status := Status.completed, link := some linkL } : DbRecord).status
      = Status.completed := by
  have hr : Reachable (some { status := Status.completed, link := some linkL }) := by
    have e : (processFileDirectly (fun s => s) initialRecord (FileBuffer.buffer [1])
        tFaturaAgibank oracleOk).1
        = some { status := Status.completed, link := some linkL } := rfl
    exact e ▸ Reachable.pipeline (FileBuffer.buffer [1]) tFaturaAgibank oracleOk Reachable.init
  exact resultLink_nonempty_only_if_completed.1 _ hr _ rfl (by simp)

/-- C3: for a job that passes the `pending -> processing` guard (stored
status `pending`, no concurrent interference), the final stored status is
`completed` exactly when the payload decodes, the extraction step returns
normally, and the dispatcher reports success; in every other case —
either service failing or the decode step throwing — it is `error`, and
no other final status occurs. -/
theorem completed_iff_both_services_succeed :
    ∀ (l : Option String) (fb : FileBuffer) (t : String) (o : Oracle),
      statusOf (processFileDirectly (fun s => s)
          (some { status := Status.pending, link := l }) fb t o).1
        = some (if decodeOk fb && ocrStepOk o && dispatchStepOk o t
                then Status.completed else Status.error) :=
  pipeline_final_status

/-- C4 counterexample: a record whose stored status is `pending` but
whose job the broker lists as actively claimed is not cancelled: the call
returns `false` and the status stays `pending`, contradicting the claim
that cancel on a pending record always returns true and stores
`cancelled`. -/
theorem cancel_pending_active_claimed_fails :
    (cancelFromQueue true { waiting := [], active := [7] } 7
        (some { status := Status.pending, link := none })).2 = false ∧
    statusOf (cancelFromQueue true { waiting := [], active := [7] } 7
        (some { status := Status.pending, link := none })).1 = some Status.pending :=
  ⟨rfl, rfl⟩

/-- C4 amended: cancel on a `pending` record returns true and stores
`cancelled`, except when the broker is available and lists the job as
actively claimed (and not waiting), in which case it returns false and
leaves the status unchanged; cancel on `processing`, `completed`,
`error`, or `cancelled` always returns false and leaves the status
unchanged. -/
theorem cancel_state_machine :
    ∀ (redis : Bool) (q : QueueState) (uid : Nat) (r : DbRecord),
      cancelFromQueue redis q uid (some r)
        = if r.status = Status.pending then
            (if redis = true ∧ uid ∉ q.waiting ∧ uid ∈ q.active
             then (some r, false)
             else (some { r with status := Status.cancelled }, true))
          else (some r, false) := by
  intro redis q uid r
  rcases r with ⟨st, l⟩
  cases st <;>
    cases redis <;>
    by_cases hw : uid ∈ q.waiting <;>
    by_cases ha : uid ∈ q.active <;>
    simp [cancelFromQueue, updateCancelledIfPending, hw, ha]

/-- C5: a pipeline invocation whose initial status read returns
`cancelled`, `completed`, or `processing` aborts at once with no side
effects — empty effect list, store untouched — whatever the payload,
template, oracle, and concurrent interference are. -/
theorem duplicate_delivery_is_noop :
    ∀ (interfere : Option DbRecord → Option DbRecord) (fb : FileBuffer)
      (t : String) (o : Oracle) (l : Option String),
      processFileDirectly interfere (some { status := Status.cancelled, link := l }) fb t o
        = (some { status := Status.cancelled, link := l }, [], PipeResult.abortedCancelled) ∧
      processFileDirectly interfere (some { status := Status.completed, link := l }) fb t o
        = (some { status := Status.completed, link := l }, [], PipeResult.abortedCompleted) ∧
      processFileDirectly interfere (some { status := Status.processing, link := l }) fb t o
        = (some { status := Status.processing, link := l }, [], PipeResult.abortedProcessing) :=
  fun _ _ _ _ _ => ⟨rfl, rfl, rfl⟩

/-- C6: the decode step yields a byte buffer exactly for a native buffer
(returned as is) or an object carrying an array-valued `data` field
(bytes preserved when they are bytes); the two remaining shapes fail with
a decode error, and a pipeline whose payload fails to decode ends with
status `error`. -/
theorem payload_decode_closed_shapes :
    (∀ bs : List Nat, decodeFileBuffer (FileBuffer.buffer bs) = Except.ok bs) ∧
    (∀ (ht : Bool) (d : List Nat), (∀ x ∈ d, x < 256) →
        decodeFileBuffer (FileBuffer.serialized ht d) = Except.ok d) ∧
    (decodeFileBuffer FileBuffer.typeTagOnly = Except.error msgUnsupportedFormat ∧
     decodeFileBuffer FileBuffer.other = Except.error msgNotConvertible) ∧
    (∀ (l : Option String) (fb : FileBuffer) (t : String) (o : Oracle) (m : String),
        decodeFileBuffer fb = Except.error m →
        statusOf (processFileDirectly (fun s => s)
            (some { status := Status.pending, link := l }) fb t o).1 = some Status.error) := by
  refine ⟨fun bs => rfl, ?_, ⟨rfl, rfl⟩, ?_⟩
  · intro ht d h
    simp [decodeFileBuffer, bufferFrom_of_bytes h]
  · intro l fb t o m h
    have hp := pipeline_final_status l fb t o
    simp [decodeOk, h, exceptToBool] at hp
    exact hp

/-- C6 witness: the decode theorem applied at a concrete serialized
byte-array payload and at a concrete undecodable payload. -/
theorem payload_decode_closed_shapes_witness :
    decodeFileBuffer (FileBuffer.serialized true [7, 255]) = Except.ok [7, 255] ∧
    statusOf (processFileDirectly (fun s => s)
        (some { status := Status.pending, link := none })
        FileBuffer.other tFaturaAgibank oracleOk).1 = some Status.error :=
  ⟨payload_decode_closed_shapes.2.1 true [7, 255] (by decide),
   payload_decode_closed_shapes.2.2.2 none FileBuffer.other tFaturaAgibank oracleOk
     msgNotConvertible rfl⟩

/-- C7: the extraction step hands an empty text to the dispatch stage
exactly when the gateway call succeeded and the service explicitly
reported overall success (`sucesso` truthy); a failed gateway call always
raises; and when the extraction step raises, the pipeline never performs
the dispatch call and ends with status `error`. -/
theorem empty_text_needs_explicit_success :
    (∀ r : OcrResponse,
        processFileByTemplate r = Except.ok emptyString ↔
          (r.success = true ∧ strTruthy r.extracted_text = false ∧
           boolTruthy r.sucesso = true)) ∧
    (∀ r : OcrResponse, r.success = false →
        ∃ m, processFileByTemplate r = Except.error m) ∧
    (∀ (l : Option String) (fb : FileBuffer) (t : String) (o : Oracle) (m : String),
        processFileByTemplate (extractTextFromPdf o.ocrHttp) = Except.error m →
        Effect.callDispatch ∉ (processFileDirectly (fun s => s)
            (some { status := Status.pending, link := l }) fb t o).2.1 ∧
        statusOf (processFileDirectly (fun s => s)
            (some { status := Status.pending, link := l }) fb t o).1 = some Status.error) := by
  refine ⟨?_, ?_, ?_⟩
  · intro r
    cases hs : r.success
    · simp [processFileByTemplate, hs]
    · cases het : strTruthy r.extracted_text <;> cases hsu : boolTruthy r.sucesso <;>
        simp [processFileByTemplate, hs, het, hsu,
          jsOrValue_of_not_truthy, jsOrValue_of_truthy]
  · intro r h
    exact ⟨msgExtractionFail ++ jsOrValue r.error, by simp [processFileByTemplate, h]⟩
  · intro l fb t o m h
    constructor
    · rcases hd : decodeFileBuffer fb with m2 | bs <;>
        simp [processFileDirectly, updateProcessingIfPending, hd, h]
    · have hp := pipeline_final_status l fb t o
      simp [ocrStepOk, h, exceptToBool] at hp
      exact hp

/-- C7 witness: the soft-success equivalence applied at the concrete
response with empty text and explicit service success, and the raise
behaviour applied at a concrete failed gateway call. -/
theorem empty_text_needs_explicit_success_witness :
    processFileByTemplate
        { success := true, extracted_text := some emptyString, sucesso := some true }
      = Except.ok emptyString ∧
    ∃ m, processFileByTemplate { success := false } = Except.error m :=
  ⟨(empty_text_needs_explicit_success.1
      { success := true, extracted_text := some emptyString, sucesso := some true }).2
      ⟨rfl, by decide, rfl⟩,
   empty_text_needs_explicit_success.2.1 { success := false } rfl⟩

/-- C8 counterexample: on a service response carrying only the flat
extracted-text field (no per-page list), the gateway's canonical text is
the empty string, not the flat field's value, so the claimed equation
with the flat field fails at this concrete response. -/
theorem flat_text_field_not_used :
    (extractTextFromPdf (HttpOutcome.ok { extracted_text := some flatHello })).extracted_text
      = some emptyString ∧
    (extractTextFromPdf (HttpOutcome.ok { extracted_text := some flatHello })).extracted_text
      ≠ some flatHello := by
  exact ⟨rfl, by decide⟩

/-- C8 amended: the canonical extracted text is the per-page fragments
joined with a double newline when the response carries the per-page list,
and the empty string otherwise; the flat extracted-text field of the
response is never consulted (first conjunct: the gateway result is
invariant under changing it), and a thrown call maps to failure. -/
theorem canonical_text_from_pages :
    (∀ (d : OcrApiData) (flat : Option String),
        extractTextFromPdf (HttpOutcome.ok { d with extracted_text := flat })
          = extractTextFromPdf (HttpOutcome.ok d)) ∧
    (∀ d : OcrApiData,
        (extractTextFromPdf (HttpOutcome.ok d)).extracted_text
          = some (match d.texto_extraido with
                  | some pages => String.intercalate pageSep pages
                  | none => emptyString)) ∧
    (∀ (msg : String) (re : Option String),
        (extractTextFromPdf (HttpOutcome.err msg re)).success = false) :=
  ⟨fun _ _ => rfl, fun _ => rfl, fun _ _ => rfl⟩

/-- C9: given the same stored record and the same service oracle, the
fallback executor (native buffer) and the broker worker (buffer
round-tripped through the transport serialization) produce identical
outcomes — same stored record, same effects, same result — and the
facade either enqueues the job or runs that same pipeline directly, so a
submission is never left un-attempted. -/
theorem fallback_broker_equivalence :
    ∀ (db0 : Option DbRecord) (bytes : List Nat) (t : String) (o : Oracle),
      (∀ x ∈ bytes, x < 256) →
      fallbackExecute db0 bytes t o = workerExecute db0 bytes t o ∧
      ∀ ra es : Bool,
        addToQueue ra es db0 bytes t o = SubmitOutcome.enqueued ∨
        addToQueue ra es db0 bytes t o
          = SubmitOutcome.ranDirectly (workerExecute db0 bytes t o) := by
  intro db0 bytes t o h
  have hdec : decodeFileBuffer (FileBuffer.buffer bytes)
      = decodeFileBuffer (serializedJobBuffer bytes) := by
    simp [decodeFileBuffer, serializedJobBuffer, bufferFrom_of_bytes h]
  have heq : fallbackExecute db0 bytes t o = workerExecute db0 bytes t o :=
    pipeline_decode_congr (fun s => s) db0 hdec t o
  refine ⟨heq, ?_⟩
  intro ra es
  cases ra <;> cases es <;> simp [addToQueue, heq]

/-- C9 witness: the equivalence applied at a concrete record, byte
buffer, template, and oracle. -/
theorem fallback_broker_equivalence_witness :
    fallbackExecute (some { status := Status.pending, link := none }) [1, 2, 255]
        tFaturaAgibank oracleOk
      = workerExecute (some { status := Status.pending, link := none }) [1, 2, 255]
        tFaturaAgibank oracleOk :=
  (fallback_broker_equivalence (some { status := Status.pending, link := none })
    [1, 2, 255] tFaturaAgibank oracleOk (by decide)).1

/-- C10: both pje template ids pass the upload endpoint validation, yet
the dispatcher mapping has no entry for either under any environment
configuration; dispatching them returns a failure value (never a thrown
exception — the dispatcher is total into its result type), so a pending
record processed with either template always ends with status `error`,
whatever the payload and the extraction outcome. -/
theorem pje_templates_always_error :
    (tPjeRemuneracao ∈ validTemplates ∧ tPjeHoras ∈ validTemplates) ∧
    (∀ e : EnvVars,
        webhookConfigUrl e tPjeRemuneracao = none ∧
        webhookConfigUrl e tPjeHoras = none) ∧
    (∀ (e : EnvVars) (http : HttpOutcome WebhookRespData),
        (processOcrDataByTemplate e tPjeRemuneracao http).success = false ∧
        (processOcrDataByTemplate e tPjeHoras http).success = false) ∧
    (∀ (l : Option String) (fb : FileBuffer) (o : Oracle),
        statusOf (processFileDirectly (fun s => s)
            (some { status := Status.pending, link := l }) fb tPjeRemuneracao o).1
          = some Status.error ∧
        statusOf (processFileDirectly (fun s => s)
            (some { status := Status.pending, link := l }) fb tPjeHoras o).1
          = some Status.error) := by
  refine ⟨⟨by decide, by decide⟩, fun e => ⟨rfl, rfl⟩, fun e http => ⟨rfl, rfl⟩, ?_⟩
  intro l fb o
  constructor
  · have hp := pipeline_final_status l fb tPjeRemuneracao o
    have hds : dispatchStepOk o tPjeRemuneracao = false := rfl
    simp [hds] at hp
    exact hp
  · have hp := pipeline_final_status l fb tPjeHoras o
    have hds : dispatchStepOk o tPjeHoras = false := rfl
    simp [hds] at hp
    exact hp

end UploadApp
